import Mathlib

/-
Verification of the DatabunkerPro python client (databunkerpro/api.py):
a shallow embedding of the request-dispatch layer, the raw-request
variant, the name-vs-id routing of group/role references, and the
Prometheus metrics parser, together with theorems settling the frozen
claims about them.
-/

/-- Python JSON-like values as handled by the client. -/
inductive PyVal where
  | none
  | bool (b : Bool)
  | int (n : Int)
  | str (s : String)
  | list (xs : List PyVal)
  | dict (entries : List (String × PyVal))

/-- A Python dict with string keys, in insertion order. -/
abbrev PyDict := List (String × PyVal)

/-- Python truthiness bool(v) for the values above. -/
def PyVal.truthy : PyVal → Bool
  | .none => false
  | .bool b => b
  | .int n => n != 0
  | .str s => !s.isEmpty
  | .list xs => !xs.isEmpty
  | .dict es => !es.isEmpty

/-- Truthiness of an optional dict argument: Python None and the empty
dict are both falsy. -/
def truthyDict : Option PyDict → Bool
  | Option.none => false
  | Option.some d => !d.isEmpty

/-- Python dict assignment d[k] = v: replace the value in place when the
key is present, append the new pair otherwise. -/
def dictSet (d : PyDict) (k : String) (v : PyVal) : PyDict :=
  if d.any (fun p => p.1 == k) then
    d.map (fun p => if p.1 == k then (k, v) else p)
  else d ++ [(k, v)]

/-- Python d.update(other): set every pair of other, in order. -/
def dictUpdate (d other : PyDict) : PyDict :=
  other.foldl (fun acc p => dictSet acc p.1 p.2) d

/-- Python result.get(key) on a decoded value: None when the key is
absent. The source calls .get only on dict-shaped results; any other
shape would raise AttributeError in python, and the one place this
matters below is proved unreachable. -/
def PyVal.get : PyVal → String → Option PyVal
  | .dict d, k => d.lookup k
  | _, _ => Option.none

/-- Truthiness of result.get(key): None (absent key) is falsy, otherwise
the truthiness of the stored value. -/
def pyTruthyOpt : Option PyVal → Bool
  | Option.some v => v.truthy
  | Option.none => false

/-- Client state set up by DatabunkerproAPI.__init__ (api.py lines 17-29). -/
structure DatabunkerproAPI where
  base_url : String
  x_bunker_token : String
  x_bunker_tenant : String

/-- base_url.rstrip("/"): drop every trailing slash. -/
def rstripSlash (s : String) : String :=
  String.mk ((s.data.reverse.dropWhile (fun c => c == '/')).reverse)

/-- DatabunkerproAPI.__init__: the stored base_url has trailing slashes
stripped; token and tenant are stored as given. -/
def initAPI (base_url x_bunker_token x_bunker_tenant : String) : DatabunkerproAPI :=
  { base_url := rstripSlash base_url
    x_bunker_token := x_bunker_token
    x_bunker_tenant := x_bunker_tenant }

/-- Headers built by _make_request (api.py lines 54-59): content type,
then the token header when a token is configured, then the tenant header
when a tenant is configured. -/
def make_request_headers (c : DatabunkerproAPI) : List (String × String) :=
  let h := [("Content-Type", "application/json")]
  let h := if c.x_bunker_token != "" then h ++ [("X-Bunker-Token", c.x_bunker_token)] else h
  if c.x_bunker_tenant != "" then h ++ [("X-Bunker-Tenant", c.x_bunker_tenant)] else h

/-- Headers built by raw_request (api.py lines 108-112): content type and
the token header only; the tenant header is never attached. -/
def raw_request_headers (c : DatabunkerproAPI) : List (String × String) :=
  let h := [("Content-Type", "application/json")]
  if c.x_bunker_token != "" then h ++ [("X-Bunker-Token", c.x_bunker_token)] else h

/-- Request-body construction shared by _make_request and raw_request
(api.py lines 63-69): the mapping handed to json.dumps, or none when the
body is python None (no body sent). Both branches test python truthiness,
so an absent argument and an empty dict behave alike. -/
def buildBody (data request_metadata : Option PyDict) : Option PyDict :=
  if truthyDict data || truthyDict request_metadata then
    let body_data := data.getD []
    Option.some
      (if truthyDict request_metadata then
        dictSet body_data "request_metadata" (PyVal.dict (request_metadata.getD []))
      else body_data)
  else Option.none

/-- An HTTP request as assembled by the client: method, fully-qualified
URL, header list, and the body mapping handed to json.dumps (none when no
body is sent). -/
structure HttpRequest where
  method : String
  url : String
  headers : List (String × String)
  body : Option PyDict

/-- The request assembled by _make_request (api.py lines 54-69). -/
def make_request_request (c : DatabunkerproAPI) (endpoint method : String)
    (data request_metadata : Option PyDict) : HttpRequest :=
  { method := method
    url := c.base_url ++ "/v2/" ++ endpoint
    headers := make_request_headers c
    body := buildBody data request_metadata }

/-- The request assembled by raw_request (api.py lines 108-121): same URL
and body construction, but raw_request_headers (no tenant header). -/
def raw_request_request (c : DatabunkerproAPI) (endpoint method : String)
    (data request_metadata : Option PyDict) : HttpRequest :=
  { method := method
    url := c.base_url ++ "/v2/" ++ endpoint
    headers := raw_request_headers c
    body := buildBody data request_metadata }

/-- An HTTP response as seen through the requests library: status code,
reason phrase, final URL, raw body bytes (content), and the outcome of
response.json() — ok with the decoded value, or error with str(e) of the
JSONDecodeError it raises. -/
structure HttpResponse where
  status_code : Nat
  reason : String
  url : String
  content : String
  json : Except String PyVal

/-- requests.Response.raise_for_status: raises HTTPError (a subclass of
RequestException) for status codes 400-599, with the message the requests
library formats from code, reason and URL; returns normally otherwise. -/
def raise_for_status (r : HttpResponse) : Except String Unit :=
  if 400 ≤ r.status_code ∧ r.status_code < 500 then
    Except.error (toString r.status_code ++ " Client Error: " ++ r.reason ++ " for url: " ++ r.url)
  else if 500 ≤ r.status_code ∧ r.status_code < 600 then
    Except.error (toString r.status_code ++ " Server Error: " ++ r.reason ++ " for url: " ++ r.url)
  else Except.ok ()

/-- requests.Response.ok: true exactly when raise_for_status would not
raise, i.e. the status code is outside 400-599. -/
def response_ok (r : HttpResponse) : Bool :=
  !(decide (400 ≤ r.status_code) && decide (r.status_code < 600))

/-- Outcome of requests.request: either a response, or a raised
requests.exceptions.RequestException whose str() is the given message
(connection error, timeout, DNS failure, and similar). -/
inductive TransportResult where
  | success (r : HttpResponse)
  | failure (msg : String)

/-- The network, modelled as an oracle from the constructed request to
its transport outcome. -/
abbrev Transport := HttpRequest → TransportResult

/-- Body of the try block of _make_request once requests.request has
returned a response (api.py lines 73-85), in an exception monad whose
error is str(e) of the raised RequestException: raise_for_status, then
response.json(), then the branch on response.ok with its status/message
inspection. -/
def make_request_handle (r : HttpResponse) : Except String PyVal := do
  let _ ← raise_for_status r
  let result ← r.json
  if !(response_ok r) then
    if pyTruthyOpt (result.get "status") then
      Except.ok result
    else
      Except.ok (PyVal.dict
        [("status", PyVal.str "error"),
         ("message", (result.get "message").getD (PyVal.str "API request failed"))])
  else
    Except.ok result

/-- DatabunkerproAPI._make_request (api.py lines 31-87) over a transport
oracle: build the request, run the try block, and on any caught
RequestException return the synthesized error mapping of line 87. -/
def make_request (net : Transport) (c : DatabunkerproAPI) (endpoint method : String)
    (data request_metadata : Option PyDict) : PyVal :=
  let req := make_request_request c endpoint method data request_metadata
  let outcome : Except String PyVal :=
    match net req with
    | TransportResult.success r => make_request_handle r
    | TransportResult.failure msg => Except.error msg
  match outcome with
  | Except.ok v => v
  | Except.error e =>
      PyVal.dict [("status", PyVal.str "error"),
                  ("message", PyVal.str ("Error making request: " ++ e))]

/-- DatabunkerproAPI.raw_request (api.py lines 89-124): same URL and body
construction, no tenant header, no try/except and no raise_for_status;
returns response.content for any status code, and a raised transport
exception propagates to the caller (the Except.error case). -/
def raw_request (net : Transport) (c : DatabunkerproAPI) (endpoint method : String)
    (data request_metadata : Option PyDict) : Except String String :=
  let req := raw_request_request c endpoint method data request_metadata
  match net req with
  | TransportResult.success r => Except.ok r.content
  | TransportResult.failure msg => Except.error msg

/-- DatabunkerproAPI.get_user (api.py lines 227-246). -/
def get_user (net : Transport) (c : DatabunkerproAPI) (mode identity : String)
    (request_metadata : Option PyDict) : PyVal :=
  make_request net c "UserGet" "POST"
    (Option.some [("mode", PyVal.str mode), ("identity", PyVal.str identity)])
    request_metadata

/-- Python str() restricted to the scalar shapes the name-vs-id routing
receives (ints and strings; bool and None spelled as python does).
Container shapes never reach the routed positions and are mapped to the
empty string; no theorem below touches them. -/
def pyStr : PyVal → String
  | PyVal.int n => toString n
  | PyVal.str s => s
  | PyVal.bool b => cond b "True" "False"
  | PyVal.none => "None"
  | PyVal.list _ => ""
  | PyVal.dict _ => ""

/-- Python str.isdigit, ASCII fragment: nonempty and all ASCII decimal
digits. Python also accepts Unicode digit characters, which this model
does not enumerate; the routing theorems below therefore restrict every
statement that relies on the test being false to ASCII strings, where the
fragment coincides with python. On all-ASCII-digit strings (the true
case) the two agree unconditionally. -/
def pyIsdigit (s : String) : Bool :=
  !s.isEmpty && s.data.all Char.isDigit

/-- Whether every character of the string is ASCII; used to restrict
name-branch routing statements to inputs on which pyIsdigit coincides
with python str.isdigit. -/
def asciiOnly (s : String) : Bool :=
  s.data.all (fun c => c.toNat < 128)

/-- isinstance(x, int): true for python ints, and for bools since python
bool is a subclass of int. -/
def isPyInt : PyVal → Bool
  | PyVal.int _ => true
  | PyVal.bool _ => true
  | _ => false

/-- The data mapping assembled by DatabunkerproAPI.create_user
(api.py lines 126-167) before dispatch to UserCreate: the group and role
references are routed by the all-digits test on str() of the value only
(no isinstance check here). -/
def create_user_data (profile : PyVal) (options : Option PyDict) : PyDict :=
  let data : PyDict := [("profile", profile)]
  if truthyDict options then
    let opts := options.getD []
    let data :=
      match opts.lookup "groupname" with
      | Option.some g =>
          if pyIsdigit (pyStr g) then dictSet data "groupid" g
          else dictSet data "groupname" g
      | Option.none =>
          match opts.lookup "groupid" with
          | Option.some gid => dictSet data "groupid" gid
          | Option.none => data
    let data :=
      match opts.lookup "rolename" with
      | Option.some rl =>
          if pyIsdigit (pyStr rl) then dictSet data "roleid" rl
          else dictSet data "rolename" rl
      | Option.none =>
          match opts.lookup "roleid" with
          | Option.some rid => dictSet data "roleid" rid
          | Option.none => data
    let data :=
      match opts.lookup "slidingtime" with
      | Option.some v => dictSet data "slidingtime" v
      | Option.none => data
    match opts.lookup "finaltime" with
    | Option.some v => dictSet data "finaltime" v
    | Option.none => data
  else data

/-- DatabunkerproAPI.create_user (api.py lines 126-167). -/
def create_user (net : Transport) (c : DatabunkerproAPI) (profile : PyVal)
    (options : Option PyDict) (request_metadata : Option PyDict) : PyVal :=
  make_request net c "UserCreate" "POST"
    (Option.some (create_user_data profile options)) request_metadata

/-- The data mapping assembled by DatabunkerproAPI.update_group
(api.py lines 1016-1040): the group reference is routed by isinstance-int
or the all-digits test, then options are merged with dict.update. -/
def update_group_data (group_id : PyVal) (options : Option PyDict) : PyDict :=
  let data : PyDict :=
    if isPyInt group_id || pyIsdigit (pyStr group_id) then [("groupid", group_id)]
    else [("groupname", group_id)]
  if truthyDict options then dictUpdate data (options.getD []) else data

/-- DatabunkerproAPI.update_group (api.py lines 1016-1040). -/
def update_group (net : Transport) (c : DatabunkerproAPI) (group_id : PyVal)
    (options : Option PyDict) (request_metadata : Option PyDict) : PyVal :=
  make_request net c "GroupUpdate" "POST"
    (Option.some (update_group_data group_id options)) request_metadata

/-- The data mapping assembled by DatabunkerproAPI.add_user_to_group
(api.py lines 2216-2251): group and role references routed by
isinstance-int or the all-digits test; the name branches apply str(). -/
def add_user_to_group_data (mode identity : String) (group_name : PyVal)
    (role_name : Option PyVal) : PyDict :=
  let data : PyDict := [("mode", PyVal.str mode), ("identity", PyVal.str identity)]
  let data :=
    if isPyInt group_name || pyIsdigit (pyStr group_name) then
      dictSet data "groupid" group_name
    else dictSet data "groupname" (PyVal.str (pyStr group_name))
  match role_name with
  | Option.some rl =>
      if isPyInt rl || pyIsdigit (pyStr rl) then dictSet data "roleid" rl
      else dictSet data "rolename" (PyVal.str (pyStr rl))
  | Option.none => data

/-- DatabunkerproAPI.add_user_to_group (api.py lines 2216-2251). -/
def add_user_to_group (net : Transport) (c : DatabunkerproAPI) (mode identity : String)
    (group_name : PyVal) (role_name : Option PyVal)
    (request_metadata : Option PyDict) : PyVal :=
  make_request net c "GroupAddUser" "POST"
    (Option.some (add_user_to_group_data mode identity group_name role_name))
    request_metadata

/-- Python options.get(key): the stored value, or None when absent. -/
def pyDictGet (d : PyDict) (k : String) : PyVal :=
  (d.lookup k).getD PyVal.none

/-- One element of the records list built by
DatabunkerproAPI.create_users_bulk (api.py lines 185-215): profile, then
the groupname reference routed by the all-digits test on its string form
(the conditional dict key of lines 191-199, written here as a branch on
the same test), then a literal groupid entry when present, then the same
for rolename/roleid. A record without a profile key makes python raise
KeyError, modelled as Option.none. -/
def bulk_user_record_data (record : PyDict) : Option PyDict :=
  match record.lookup "profile" with
  | Option.none => Option.none
  | Option.some profile =>
      let d : PyDict := [("profile", profile)]
      let d :=
        match record.lookup "groupname" with
        | Option.some g =>
            if pyIsdigit (pyStr g) then dictSet d "groupid" g
            else dictSet d "groupname" g
        | Option.none => d
      let d :=
        match record.lookup "groupid" with
        | Option.some gid => dictSet d "groupid" gid
        | Option.none => d
      let d :=
        match record.lookup "rolename" with
        | Option.some rl =>
            if pyIsdigit (pyStr rl) then dictSet d "roleid" rl
            else dictSet d "rolename" rl
        | Option.none => d
      let d :=
        match record.lookup "roleid" with
        | Option.some rid => dictSet d "roleid" rid
        | Option.none => d
      Option.some d

/-- The data mapping assembled by DatabunkerproAPI.create_users_bulk
(api.py lines 168-225): the per-record mappings under the records key,
plus finaltime/slidingtime from options; Option.none models the KeyError
a record without profile raises. -/
def create_users_bulk_data (records : List PyDict) (options : Option PyDict) :
    Option PyDict :=
  match records.mapM bulk_user_record_data with
  | Option.none => Option.none
  | Option.some rs =>
      let data : PyDict := [("records", PyVal.list (rs.map PyVal.dict))]
      if truthyDict options then
        let opts := options.getD []
        let data :=
          match opts.lookup "finaltime" with
          | Option.some v => dictSet data "finaltime" v
          | Option.none => data
        Option.some
          (match opts.lookup "slidingtime" with
           | Option.some v => dictSet data "slidingtime" v
           | Option.none => data)
      else Option.some data

/-- DatabunkerproAPI.create_users_bulk (api.py lines 168-225). -/
def create_users_bulk (net : Transport) (c : DatabunkerproAPI) (records : List PyDict)
    (options : Option PyDict) (request_metadata : Option PyDict) : Option PyVal :=
  (create_users_bulk_data records options).map
    (fun data => make_request net c "UserCreateBulk" "POST" (Option.some data) request_metadata)

/-- The data mapping assembled by DatabunkerproAPI.update_role
(api.py lines 1253-1277): same pattern as update_group with the role
keys. -/
def update_role_data (role_id : PyVal) (options : Option PyDict) : PyDict :=
  let data : PyDict :=
    if isPyInt role_id || pyIsdigit (pyStr role_id) then [("roleid", role_id)]
    else [("rolename", role_id)]
  if truthyDict options then dictUpdate data (options.getD []) else data

/-- DatabunkerproAPI.update_role (api.py lines 1253-1277). -/
def update_role (net : Transport) (c : DatabunkerproAPI) (role_id : PyVal)
    (options : Option PyDict) (request_metadata : Option PyDict) : PyVal :=
  make_request net c "RoleUpdate" "POST"
    (Option.some (update_role_data role_id options)) request_metadata

/-- The data mapping assembled by DatabunkerproAPI.update_policy
(api.py lines 1353-1377): same pattern with the policy keys. -/
def update_policy_data (policy_id : PyVal) (options : Option PyDict) : PyDict :=
  let data : PyDict :=
    if isPyInt policy_id || pyIsdigit (pyStr policy_id) then [("policyid", policy_id)]
    else [("policyname", policy_id)]
  if truthyDict options then dictUpdate data (options.getD []) else data

/-- DatabunkerproAPI.update_policy (api.py lines 1353-1377). -/
def update_policy (net : Transport) (c : DatabunkerproAPI) (policy_id : PyVal)
    (options : Option PyDict) (request_metadata : Option PyDict) : PyVal :=
  make_request net c "PolicyUpdate" "POST"
    (Option.some (update_policy_data policy_id options)) request_metadata

/-- The data mapping assembled by DatabunkerproAPI.delete_connector
(api.py lines 1879-1899). -/
def delete_connector_data (connector_id : PyVal) : PyDict :=
  if isPyInt connector_id || pyIsdigit (pyStr connector_id) then
    [("connectorid", connector_id)]
  else [("connectorname", connector_id)]

/-- DatabunkerproAPI.delete_connector (api.py lines 1879-1899). -/
def delete_connector (net : Transport) (c : DatabunkerproAPI) (connector_id : PyVal)
    (request_metadata : Option PyDict) : PyVal :=
  make_request net c "ConnectorDelete" "POST"
    (Option.some (delete_connector_data connector_id)) request_metadata

/-- The data mapping shared verbatim by
DatabunkerproAPI.connector_get_user_data (api.py lines 1939-1965),
connector_get_user_extra_data (lines 1967-1993) and
connector_delete_user (lines 1995-2019): mode and identity, then the
connector reference routed by isinstance-int or the all-digits test. -/
def connector_user_request_data (mode identity : String) (connector_id : PyVal) : PyDict :=
  let data : PyDict := [("mode", PyVal.str mode), ("identity", PyVal.str identity)]
  if isPyInt connector_id || pyIsdigit (pyStr connector_id) then
    dictSet data "connectorid" connector_id
  else dictSet data "connectorname" connector_id

/-- DatabunkerproAPI.connector_get_user_data (api.py lines 1939-1965). -/
def connector_get_user_data (net : Transport) (c : DatabunkerproAPI)
    (mode identity : String) (connector_id : PyVal)
    (request_metadata : Option PyDict) : PyVal :=
  make_request net c "ConnectorGetUserData" "POST"
    (Option.some (connector_user_request_data mode identity connector_id)) request_metadata

/-- DatabunkerproAPI.connector_get_user_extra_data (api.py lines 1967-1993). -/
def connector_get_user_extra_data (net : Transport) (c : DatabunkerproAPI)
    (mode identity : String) (connector_id : PyVal)
    (request_metadata : Option PyDict) : PyVal :=
  make_request net c "ConnectorGetUserExtraData" "POST"
    (Option.some (connector_user_request_data mode identity connector_id)) request_metadata

/-- DatabunkerproAPI.connector_delete_user (api.py lines 1995-2019). -/
def connector_delete_user (net : Transport) (c : DatabunkerproAPI)
    (mode identity : String) (connector_id : PyVal)
    (request_metadata : Option PyDict) : PyVal :=
  make_request net c "ConnectorDeleteUser" "POST"
    (Option.some (connector_user_request_data mode identity connector_id)) request_metadata

/-- The nine-field options projection built first by both
DatabunkerproAPI.validate_connector_connectivity (api.py lines 1859-1869)
and get_table_metadata (lines 1918-1928). -/
def connector_options_base (options : PyDict) : PyDict :=
  [("connectortype", pyDictGet options "connectortype"),
   ("connectordesc", pyDictGet options "connectordesc"),
   ("username", pyDictGet options "username"),
   ("apikey", pyDictGet options "apikey"),
   ("dbhost", pyDictGet options "dbhost"),
   ("dbport", pyDictGet options "dbport"),
   ("dbname", pyDictGet options "dbname"),
   ("tablename", pyDictGet options "tablename"),
   ("status", pyDictGet options "status")]

/-- The data mapping shared verbatim by
DatabunkerproAPI.validate_connector_connectivity (api.py lines 1842-1877)
and get_table_metadata (lines 1901-1936): the options projection, then
the routing branch — which, unlike every other routing site, also sets
connectorname from options in the id branch rather than omitting it. -/
def connector_options_data (connector_id : PyVal) (options : PyDict) : PyDict :=
  if isPyInt connector_id || pyIsdigit (pyStr connector_id) then
    dictSet (dictSet (connector_options_base options) "connectorid" connector_id)
      "connectorname" (pyDictGet options "connectorname")
  else dictSet (connector_options_base options) "connectorname" connector_id

/-- DatabunkerproAPI.validate_connector_connectivity (api.py lines 1842-1877). -/
def validate_connector_connectivity (net : Transport) (c : DatabunkerproAPI)
    (connector_id : PyVal) (options : PyDict)
    (request_metadata : Option PyDict) : PyVal :=
  make_request net c "ConnectorValidateConnectivity" "POST"
    (Option.some (connector_options_data connector_id options)) request_metadata

/-- DatabunkerproAPI.get_table_metadata (api.py lines 1901-1936). -/
def get_table_metadata (net : Transport) (c : DatabunkerproAPI)
    (connector_id : PyVal) (options : PyDict)
    (request_metadata : Option PyDict) : PyVal :=
  make_request net c "ConnectorGetTableMetaData" "POST"
    (Option.some (connector_options_data connector_id options)) request_metadata

/-- The data mapping assembled by DatabunkerproAPI.bulk_list_group_users
(api.py lines 2368-2398): pagination fields, then the group reference
routed by isinstance-int or the all-digits test, with str() applied in
the name branch. -/
def bulk_list_group_users_data (unlock_uuid : String) (offset limit : Int)
    (group_name : PyVal) : PyDict :=
  let data : PyDict :=
    [("unlockuuid", PyVal.str unlock_uuid), ("offset", PyVal.int offset),
     ("limit", PyVal.int limit)]
  if isPyInt group_name || pyIsdigit (pyStr group_name) then
    dictSet data "groupid" group_name
  else dictSet data "groupname" (PyVal.str (pyStr group_name))

/-- DatabunkerproAPI.bulk_list_group_users (api.py lines 2368-2398). -/
def bulk_list_group_users (net : Transport) (c : DatabunkerproAPI)
    (unlock_uuid : String) (offset limit : Int) (group_name : PyVal)
    (request_metadata : Option PyDict) : PyVal :=
  make_request net c "BulkListGroupUsers" "POST"
    (Option.some (bulk_list_group_users_data unlock_uuid offset limit group_name))
    request_metadata

/-- Characters matched by the regex class [a-zA-Z0-9_]. -/
def isNameChar (c : Char) : Bool := c.isAlphanum || c == '_'

/-- ASCII fragment of the regex class for whitespace used by the pattern
(space, tab, newline, carriage return, vertical tab, form feed). -/
def isPySpace (c : Char) : Bool :=
  c == ' ' || c == Char.ofNat 9 || c == Char.ofNat 10 ||
  c == Char.ofNat 13 || c == Char.ofNat 11 || c == Char.ofNat 12

/-- Characters matched by the regex class [0-9.]. -/
def isValChar (c : Char) : Bool := c.isDigit || c == '.'

/-- Matcher for the anchored line pattern of _parse_prometheus_metrics
(api.py line 2647): a nonempty run of name characters, an optional
brace-delimited nonempty run of non-closing-brace characters, a nonempty
whitespace run, and a nonempty run of digit-or-dot characters reaching
the end of the line. Greedy repetition with backtracking coincides with
maximal munch here because every give-back immediately fails on the next
required character class. Returns the three captured runs. -/
def matchMetricLine (cs : List Char) : Option (List Char × Option (List Char) × List Char) :=
  let name := cs.takeWhile isNameChar
  let rest := cs.dropWhile isNameChar
  if name.isEmpty then Option.none else
  let labrest : Option (List Char) × List Char :=
    match rest with
    | c :: rs =>
        if c == Char.ofNat 123 then
          let lab := rs.takeWhile (fun d => d != Char.ofNat 125)
          let after := rs.dropWhile (fun d => d != Char.ofNat 125)
          match after with
          | _ :: rs2 => if lab.isEmpty then (Option.none, rest) else (Option.some lab, rs2)
          | [] => (Option.none, rest)
        else (Option.none, rest)
    | [] => (Option.none, rest)
  let ws := labrest.2.takeWhile isPySpace
  let valpart := labrest.2.dropWhile isPySpace
  if ws.isEmpty then Option.none else
  if valpart.isEmpty then Option.none else
  if valpart.all isValChar then Option.some (name, labrest.1, valpart) else Option.none

/-- Digit run read as a natural number (the empty run reads as 0). -/
def digitsToNat (cs : List Char) : Nat :=
  cs.foldl (fun acc c => acc * 10 + (c.toNat - 48)) 0

/-- Python float() on a string drawn from [0-9.]+ (the only shapes the
line pattern lets through): defined when there is at least one digit and
at most one dot, as the exact decimal rational; Option.none models the
ValueError float() raises otherwise (for example on 1.2.3). The binary
rounding of the python float is not modelled; on the values appearing in
the theorems below the decimal rational is the exact value of the float. -/
def pyFloatOfMatch (cs : List Char) : Option ℚ :=
  if (cs.filter (fun c => c == '.')).length ≤ 1 && cs.any Char.isDigit then
    let ip := cs.takeWhile (fun c => c != '.')
    let fp := (cs.dropWhile (fun c => c != '.')).drop 1
    Option.some ((digitsToNat ip : ℚ) + (digitsToNat fp : ℚ) / (10 : ℚ) ^ fp.length)
  else Option.none

/-- Outcome of one iteration of the line loop of _parse_prometheus_metrics:
the line is skipped, contributes one metric entry, or makes float() raise
an uncaught ValueError. -/
inductive LineResult where
  | skip
  | entry (key : String) (value : ℚ)
  | valueError
deriving DecidableEq

/-- One iteration of the loop of _parse_prometheus_metrics (api.py lines
2640-2651) on one line (as its character list): skip comment lines (first
character a hash) and blank lines (line.strip() empty, i.e. all
whitespace); otherwise try the pattern, and on a match build the metric
key — name followed by the brace-delimited labels when present — and
convert the captured value with float(). -/
def parseMetricLine (cs : List Char) : LineResult :=
  if cs.take 1 = ['#'] || cs.all isPySpace then LineResult.skip
  else
    match matchMetricLine cs with
    | Option.none => LineResult.skip
    | Option.some (name, labels, val) =>
        let key :=
          match labels with
          | Option.some lab =>
              String.mk (name ++ Char.ofNat 123 :: (lab ++ [Char.ofNat 125]))
          | Option.none => String.mk name
        match pyFloatOfMatch val with
        | Option.some q => LineResult.entry key q
        | Option.none => LineResult.valueError

/-- Python dict assignment for the metrics mapping. -/
def qDictSet (d : List (String × ℚ)) (k : String) (v : ℚ) : List (String × ℚ) :=
  if d.any (fun p => p.1 == k) then
    d.map (fun p => if p.1 == k then (k, v) else p)
  else d ++ [(k, v)]

/-- Python text.split(sep) for the one-character separator newline: the
list of maximal chunks between newline characters, with empty chunks kept
(so a trailing newline yields a final empty line, as in python). -/
def splitLines (cs : List Char) : List (List Char) :=
  match cs with
  | [] => [[]]
  | c :: rest =>
      let r := splitLines rest
      if c == Char.ofNat 10 then [] :: r
      else
        match r with
        | h :: t => (c :: h) :: t
        | [] => [[c]]

/-- DatabunkerproAPI._parse_prometheus_metrics (api.py lines 2626-2653),
also exposed unchanged as parse_prometheus_metrics (lines 2655-2665):
split the text on newlines and fold the line loop; Option.none models the
uncaught ValueError when float() raises on a matched value. -/
def parse_prometheus_metrics (text : String) : Option (List (String × ℚ)) :=
  (splitLines text.data).foldl
    (fun acc line =>
      match acc with
      | Option.none => Option.none
      | Option.some m =>
          match parseMetricLine line with
          | LineResult.skip => Option.some m
          | LineResult.entry k v => Option.some (qDictSet m k v)
          | LineResult.valueError => Option.none)
    (Option.some [])

/-- Whether a returned value is a mapping carrying a status field. -/
def hasStatusField (v : PyVal) : Bool :=
  match v with
  | PyVal.dict d => d.any (fun p => p.1 == "status")
  | _ => false

theorem response_ok_of_not_err {r : HttpResponse}
    (h : ¬ (400 ≤ r.status_code ∧ r.status_code < 600)) : response_ok r = true := by
  unfold response_ok
  simp only [Bool.not_eq_eq_eq_not, Bool.not_true, Bool.and_eq_false_iff]
  by_cases h4 : 400 ≤ r.status_code
  · right; simp only [decide_eq_false_iff_not]; intro h6; exact h ⟨h4, h6⟩
  · left; simp only [decide_eq_false_iff_not]; exact h4

theorem raise_for_status_ok {r : HttpResponse}
    (h : ¬ (400 ≤ r.status_code ∧ r.status_code < 600)) :
    raise_for_status r = Except.ok () := by
  unfold raise_for_status
  rw [if_neg, if_neg]
  · rintro ⟨h5, h6⟩; exact h ⟨le_trans (by norm_num) h5, h6⟩
  · rintro ⟨h4, h5⟩; exact h ⟨h4, lt_trans h5 (by norm_num)⟩

theorem make_request_handle_ok {r : HttpResponse} {v : PyVal}
    (h : ¬ (400 ≤ r.status_code ∧ r.status_code < 600))
    (hj : r.json = Except.ok v) :
    make_request_handle r = Except.ok v := by
  unfold make_request_handle
  rw [raise_for_status_ok h, hj]
  simp [Bind.bind, Except.bind, response_ok_of_not_err h]

theorem raise_for_status_err {r : HttpResponse}
    (h4 : 400 ≤ r.status_code) (h6 : r.status_code < 600) :
    ∃ e, raise_for_status r = Except.error e := by
  unfold raise_for_status
  by_cases h5 : r.status_code < 500
  · exact ⟨_, if_pos ⟨h4, h5⟩⟩
  · exact ⟨_, by rw [if_neg (fun hc => h5 hc.2), if_pos ⟨le_of_not_lt h5, h6⟩]⟩

theorem make_request_handle_raise {r : HttpResponse}
    (h4 : 400 ≤ r.status_code) (h6 : r.status_code < 600) :
    ∃ e, make_request_handle r = Except.error e := by
  obtain ⟨e, he⟩ := raise_for_status_err h4 h6
  refine ⟨e, ?_⟩
  unfold make_request_handle
  rw [he]
  rfl

theorem make_request_handle_decode {r : HttpResponse} {e : String}
    (hj : r.json = Except.error e) :
    ∃ msg, make_request_handle r = Except.error msg := by
  by_cases h : 400 ≤ r.status_code ∧ r.status_code < 600
  · exact make_request_handle_raise h.1 h.2
  · refine ⟨e, ?_⟩
    unfold make_request_handle
    rw [raise_for_status_ok h, hj]
    rfl

theorem make_request_of_failure {net : Transport} {c : DatabunkerproAPI}
    {endpoint method : String} {data md : Option PyDict} {msg : String}
    (h : net (make_request_request c endpoint method data md) = TransportResult.failure msg) :
    make_request net c endpoint method data md =
      PyVal.dict [("status", PyVal.str "error"),
                  ("message", PyVal.str ("Error making request: " ++ msg))] := by
  simp only [make_request, h]

theorem make_request_of_handle {net : Transport} {c : DatabunkerproAPI}
    {endpoint method : String} {data md : Option PyDict} {r : HttpResponse}
    (h : net (make_request_request c endpoint method data md) = TransportResult.success r) :
    make_request net c endpoint method data md =
      (match make_request_handle r with
       | Except.ok v => v
       | Except.error e =>
           PyVal.dict [("status", PyVal.str "error"),
                       ("message", PyVal.str ("Error making request: " ++ e))]) := by
  simp only [make_request, h]

theorem make_request_of_error_result {net : Transport} {c : DatabunkerproAPI}
    {endpoint method : String} {data md : Option PyDict} {r : HttpResponse} {e : String}
    (h : net (make_request_request c endpoint method data md) = TransportResult.success r)
    (he : make_request_handle r = Except.error e) :
    make_request net c endpoint method data md =
      PyVal.dict [("status", PyVal.str "error"),
                  ("message", PyVal.str ("Error making request: " ++ e))] := by
  rw [make_request_of_handle h, he]

theorem make_request_of_ok_result {net : Transport} {c : DatabunkerproAPI}
    {endpoint method : String} {data md : Option PyDict} {r : HttpResponse} {v : PyVal}
    (h : net (make_request_request c endpoint method data md) = TransportResult.success r)
    (hv : make_request_handle r = Except.ok v) :
    make_request net c endpoint method data md = v := by
  rw [make_request_of_handle h, hv]

theorem lookup_none_any {k : String} {d : PyDict} (h : d.lookup k = Option.none) :
    d.any (fun p => p.1 == k) = false := by
  induction d with
  | nil => rfl
  | cons a t ih =>
      rw [List.lookup] at h
      cases hk : (k == a.1) with
      | true => rw [hk] at h; cases h
      | false =>
          rw [hk] at h
          rw [List.any_cons, ih h, Bool.or_false]
          rw [beq_eq_false_iff_ne] at hk ⊢
          exact fun e => hk e.symm

theorem dictSet_absent {d : PyDict} {k : String} (v : PyVal)
    (h : d.lookup k = Option.none) : dictSet d k v = d ++ [(k, v)] := by
  unfold dictSet
  rw [lookup_none_any h]
  rfl

theorem lookup_append_of_none {k : String} {d l : PyDict}
    (h : d.lookup k = Option.none) : (d ++ l).lookup k = l.lookup k := by
  induction d with
  | nil => rfl
  | cons a t ih =>
      rw [List.lookup] at h
      cases hk : (k == a.1) with
      | true => rw [hk] at h; cases h
      | false =>
          rw [hk] at h
          rw [List.cons_append, List.lookup, hk]
          exact ih h

/-- C1: refuted as stated; the code diverges from the claim. Dispatching
against a server answering HTTP 500 with body message boom and no status
field returns the transport-exception mapping built from the HTTPError
that response.raise_for_status() raises at line 74, not the mapping the
claim describes: the body inspection of lines 75-83 is unreachable
because raise_for_status raises for every 4xx/5xx response before
response.ok is consulted. -/
theorem C1_dead_error_branch :
    make_request
        (fun _ => TransportResult.success
          { status_code := 500, reason := "Internal Server Error",
            url := "https://h/v2/UserGet",
            content := "\x7b\"message\":\"boom\"\x7d",
            json := Except.ok (PyVal.dict [("message", PyVal.str "boom")]) })
        ⟨"https://h", "", ""⟩ "UserGet" "POST" Option.none Option.none =
      PyVal.dict [("status", PyVal.str "error"),
        ("message", PyVal.str "Error making request: 500 Server Error: Internal Server Error for url: https://h/v2/UserGet")] ∧
    make_request
        (fun _ => TransportResult.success
          { status_code := 500, reason := "Internal Server Error",
            url := "https://h/v2/UserGet",
            content := "\x7b\"message\":\"boom\"\x7d",
            json := Except.ok (PyVal.dict [("message", PyVal.str "boom")]) })
        ⟨"https://h", "", ""⟩ "UserGet" "POST" Option.none Option.none ≠
      PyVal.dict [("status", PyVal.str "error"), ("message", PyVal.str "boom")] := by
  refine ⟨rfl, fun h => ?_⟩
  have hbase : make_request
        (fun _ => TransportResult.success
          { status_code := 500, reason := "Internal Server Error",
            url := "https://h/v2/UserGet",
            content := "\x7b\"message\":\"boom\"\x7d",
            json := Except.ok (PyVal.dict [("message", PyVal.str "boom")]) })
        ⟨"https://h", "", ""⟩ "UserGet" "POST" Option.none Option.none =
      PyVal.dict [("status", PyVal.str "error"),
        ("message", PyVal.str "Error making request: 500 Server Error: Internal Server Error for url: https://h/v2/UserGet")] := rfl
  rw [hbase] at h
  simp at h

/-- C2: a transport failure is caught and converted to a mapping with
status error and the nonempty message built from the fixed prefix and
str(e); the call returns this value, nothing propagates. -/
theorem C2_transport_failure_mapping
    (net : Transport) (c : DatabunkerproAPI) (endpoint method : String)
    (data md : Option PyDict) (msg : String)
    (h : net (make_request_request c endpoint method data md) = TransportResult.failure msg) :
    make_request net c endpoint method data md =
      PyVal.dict [("status", PyVal.str "error"),
                  ("message", PyVal.str ("Error making request: " ++ msg))] ∧
    ("Error making request: " ++ msg) ≠ "" := by
  refine ⟨make_request_of_failure h, fun hempty => ?_⟩
  have h22 : ("Error making request: " ++ msg).length =
      ("Error making request: " : String).length + msg.length := String.length_append _ _
  rw [hempty, show ("" : String).length = 0 from rfl,
      show ("Error making request: " : String).length = 22 from rfl] at h22
  omega

theorem C2_transport_failure_mapping_witness :
    make_request (fun _ => TransportResult.failure "connection refused")
        ⟨"https://h", "tok", "ten"⟩ "UserGet" "POST" Option.none Option.none =
      PyVal.dict [("status", PyVal.str "error"),
                  ("message", PyVal.str "Error making request: connection refused")] ∧
    ("Error making request: " ++ "connection refused") ≠ "" :=
  C2_transport_failure_mapping (fun _ => TransportResult.failure "connection refused")
    ⟨"https://h", "tok", "ten"⟩ "UserGet" "POST" Option.none Option.none
    "connection refused" rfl

/-- C3 counterexample: a 2xx response whose decoded body has no status
field is returned verbatim, so the returned mapping has no status field,
against the claim's unconditional invariant. -/
theorem C3_status_invariant_counterexample :
    make_request
        (fun _ => TransportResult.success
          { status_code := 200, reason := "OK", url := "https://h/v2/UserGet",
            content := "\x7b\"profile\":\"p\"\x7d",
            json := Except.ok (PyVal.dict [("profile", PyVal.str "p")]) })
        ⟨"https://h", "", ""⟩ "UserGet" "POST" Option.none Option.none =
      PyVal.dict [("profile", PyVal.str "p")] ∧
    hasStatusField (PyVal.dict [("profile", PyVal.str "p")]) = false :=
  ⟨rfl, rfl⟩

/-- C3 amended: the returned value carries a status field whenever the
transport fails, the response status is 4xx or 5xx, or the body fails to
decode; a response outside 400-599 whose body decodes is returned
verbatim, so it carries a status field only when the body does. -/
theorem C3_status_invariant_amended :
    (∀ (net : Transport) (c : DatabunkerproAPI) (endpoint method : String)
        (data md : Option PyDict) (msg : String),
      net (make_request_request c endpoint method data md) = TransportResult.failure msg →
      hasStatusField (make_request net c endpoint method data md) = true) ∧
    (∀ (net : Transport) (c : DatabunkerproAPI) (endpoint method : String)
        (data md : Option PyDict) (r : HttpResponse),
      net (make_request_request c endpoint method data md) = TransportResult.success r →
      400 ≤ r.status_code → r.status_code < 600 →
      hasStatusField (make_request net c endpoint method data md) = true) ∧
    (∀ (net : Transport) (c : DatabunkerproAPI) (endpoint method : String)
        (data md : Option PyDict) (r : HttpResponse) (e : String),
      net (make_request_request c endpoint method data md) = TransportResult.success r →
      r.json = Except.error e →
      hasStatusField (make_request net c endpoint method data md) = true) ∧
    (∀ (net : Transport) (c : DatabunkerproAPI) (endpoint method : String)
        (data md : Option PyDict) (r : HttpResponse) (v : PyVal),
      net (make_request_request c endpoint method data md) = TransportResult.success r →
      ¬ (400 ≤ r.status_code ∧ r.status_code < 600) → r.json = Except.ok v →
      make_request net c endpoint method data md = v) := by
  refine ⟨?_, ?_, ?_, ?_⟩
  · intro net c endpoint method data md msg h
    rw [make_request_of_failure h]
    rfl
  · intro net c endpoint method data md r hnet h4 h6
    obtain ⟨e, he⟩ := make_request_handle_raise h4 h6
    rw [make_request_of_error_result hnet he]
    rfl
  · intro net c endpoint method data md r e hnet hj
    obtain ⟨m, hm⟩ := make_request_handle_decode hj
    rw [make_request_of_error_result hnet hm]
    rfl
  · intro net c endpoint method data md r v hnet h hj
    exact make_request_of_ok_result hnet (make_request_handle_ok h hj)

theorem C3_status_invariant_amended_witness :
    hasStatusField (make_request (fun _ => TransportResult.failure "refused")
      ⟨"https://h", "", ""⟩ "UserGet" "POST" Option.none Option.none) = true ∧
    hasStatusField (make_request
      (fun _ => TransportResult.success
        { status_code := 500, reason := "E", url := "u", content := "",
          json := Except.ok (PyVal.dict []) })
      ⟨"https://h", "", ""⟩ "UserGet" "POST" Option.none Option.none) = true ∧
    hasStatusField (make_request
      (fun _ => TransportResult.success
        { status_code := 200, reason := "OK", url := "u", content := "not json",
          json := Except.error "Expecting value" })
      ⟨"https://h", "", ""⟩ "UserGet" "POST" Option.none Option.none) = true ∧
    make_request
      (fun _ => TransportResult.success
        { status_code := 200, reason := "OK", url := "u", content := "",
          json := Except.ok (PyVal.dict [("status", PyVal.str "ok")]) })
      ⟨"https://h", "", ""⟩ "UserGet" "POST" Option.none Option.none =
      PyVal.dict [("status", PyVal.str "ok")] :=
  ⟨C3_status_invariant_amended.1 _ ⟨"https://h", "", ""⟩ "UserGet" "POST"
      Option.none Option.none "refused" rfl,
   C3_status_invariant_amended.2.1 _ ⟨"https://h", "", ""⟩ "UserGet" "POST"
      Option.none Option.none _ rfl (by norm_num) (by norm_num),
   C3_status_invariant_amended.2.2.1 _ ⟨"https://h", "", ""⟩ "UserGet" "POST"
      Option.none Option.none _ "Expecting value" rfl rfl,
   C3_status_invariant_amended.2.2.2 _ ⟨"https://h", "", ""⟩ "UserGet" "POST"
      Option.none Option.none _ _ rfl (by decide) rfl⟩

/-- C4: a dispatch receiving a 2xx response whose body decodes returns
the decoded mapping verbatim; specialized to get_user, whose dispatched
payload is the mode/identity mapping of the claim. -/
theorem C4_success_verbatim :
    (∀ (net : Transport) (c : DatabunkerproAPI) (endpoint method : String)
        (data md : Option PyDict) (r : HttpResponse) (v : PyVal),
      net (make_request_request c endpoint method data md) = TransportResult.success r →
      200 ≤ r.status_code → r.status_code < 300 → r.json = Except.ok v →
      make_request net c endpoint method data md = v) ∧
    (∀ (net : Transport) (c : DatabunkerproAPI) (md : Option PyDict)
        (r : HttpResponse) (v : PyVal),
      net (make_request_request c "UserGet" "POST"
          (Option.some [("mode", PyVal.str "email"),
                        ("identity", PyVal.str "a@example.com")]) md)
        = TransportResult.success r →
      200 ≤ r.status_code → r.status_code < 300 → r.json = Except.ok v →
      get_user net c "email" "a@example.com" md = v) := by
  constructor
  · intro net c endpoint method data md r v hnet h2 h3 hj
    exact make_request_of_ok_result hnet (make_request_handle_ok (by omega) hj)
  · intro net c md r v hnet h2 h3 hj
    unfold get_user
    exact make_request_of_ok_result hnet (make_request_handle_ok (by omega) hj)

theorem C4_success_verbatim_witness :
    (200 ≤ 200 ∧ 200 < 300) ∧
    get_user
      (fun _ => TransportResult.success
        { status_code := 200, reason := "OK", url := "https://h/v2/UserGet",
          content := "",
          json := Except.ok (PyVal.dict [("status", PyVal.str "ok"),
            ("profile", PyVal.dict [("email", PyVal.str "a@example.com")])]) })
      ⟨"https://h", "tok", ""⟩ "email" "a@example.com" Option.none =
    PyVal.dict [("status", PyVal.str "ok"),
      ("profile", PyVal.dict [("email", PyVal.str "a@example.com")])] :=
  ⟨⟨by norm_num, by norm_num⟩,
   C4_success_verbatim.2 _ ⟨"https://h", "tok", ""⟩ Option.none _ _ rfl
     (by norm_num) (by norm_num) rfl⟩

/-- C5 counterexample: with a provided but empty metadata mapping the
body is serialized without any request_metadata key, because the merge
tests python truthiness, not presence. -/
theorem C5_metadata_merge_counterexample :
    (make_request_request ⟨"https://h", "", ""⟩ "UserGet" "POST"
        (Option.some [("a", PyVal.int 1)]) (Option.some [])).body =
      Option.some [("a", PyVal.int 1)] ∧
    List.lookup "request_metadata" [("a", PyVal.int 1)] = Option.none :=
  ⟨rfl, rfl⟩

/-- C5 amended: when a nonempty metadata mapping is provided and the
payload does not already contain the reserved key, the serialized body is
the payload extended with request_metadata bound to the metadata mapping,
every payload pair preserved. -/
theorem C5_metadata_merge_amended
    (c : DatabunkerproAPI) (endpoint method : String) (data meta : PyDict)
    (hm : meta ≠ [])
    (hk : data.lookup "request_metadata" = Option.none) :
    (make_request_request c endpoint method (Option.some data) (Option.some meta)).body
        = Option.some (data ++ [("request_metadata", PyVal.dict meta)]) ∧
    (data ++ [("request_metadata", PyVal.dict meta)]).lookup "request_metadata"
        = Option.some (PyVal.dict meta) ∧
    ∀ p ∈ data, p ∈ data ++ [("request_metadata", PyVal.dict meta)] := by
  have hmt : truthyDict (Option.some meta) = true := by
    unfold truthyDict
    simp [hm]
  refine ⟨?_, ?_, fun p hp => List.mem_append_left _ hp⟩
  · show buildBody (Option.some data) (Option.some meta) = _
    unfold buildBody
    rw [hmt]
    simp only [Bool.or_true, if_true, Option.getD_some]
    rw [dictSet_absent _ hk]
  · rw [lookup_append_of_none hk]
    rfl

theorem C5_metadata_merge_amended_witness :
    ([("m", PyVal.str "x")] ≠ ([] : PyDict) ∧
      List.lookup "request_metadata" [("a", PyVal.int 1)] = Option.none) ∧
    (make_request_request ⟨"https://h", "", ""⟩ "UserGet" "POST"
        (Option.some [("a", PyVal.int 1)]) (Option.some [("m", PyVal.str "x")])).body
      = Option.some [("a", PyVal.int 1), ("request_metadata", PyVal.dict [("m", PyVal.str "x")])] ∧
    List.lookup "request_metadata"
        [("a", PyVal.int 1), ("request_metadata", PyVal.dict [("m", PyVal.str "x")])]
      = Option.some (PyVal.dict [("m", PyVal.str "x")]) ∧
    ∀ p ∈ [("a", PyVal.int 1)],
      p ∈ [("a", PyVal.int 1), ("request_metadata", PyVal.dict [("m", PyVal.str "x")])] :=
  ⟨⟨List.cons_ne_nil _ _, rfl⟩,
   C5_metadata_merge_amended ⟨"https://h", "", ""⟩ "UserGet" "POST"
     [("a", PyVal.int 1)] [("m", PyVal.str "x")] (List.cons_ne_nil _ _) rfl⟩

/-- C6: with payload and metadata both absent the dispatched request has
no body, while URL, headers and method are constructed as usual. -/
theorem C6_absent_body (c : DatabunkerproAPI) (endpoint method : String) :
    (make_request_request c endpoint method Option.none Option.none).body = Option.none ∧
    (make_request_request c endpoint method Option.none Option.none).url =
      c.base_url ++ "/v2/" ++ endpoint ∧
    (make_request_request c endpoint method Option.none Option.none).headers =
      make_request_headers c ∧
    (make_request_request c endpoint method Option.none Option.none).method = method :=
  ⟨rfl, rfl, rfl, rfl⟩

/-- C7: a configured tenant is attached by _make_request under the
X-Bunker-Tenant header; raw_request never attaches that header; a
configured token is attached by both under X-Bunker-Token. -/
theorem C7_tenant_header (c : DatabunkerproAPI) (h : c.x_bunker_tenant ≠ "") :
    (make_request_headers c).lookup "X-Bunker-Tenant" = Option.some c.x_bunker_tenant ∧
    (∀ c2 : DatabunkerproAPI,
      (raw_request_headers c2).lookup "X-Bunker-Tenant" = Option.none) ∧
    (∀ c2 : DatabunkerproAPI, c2.x_bunker_token ≠ "" →
      (make_request_headers c2).lookup "X-Bunker-Token" = Option.some c2.x_bunker_token ∧
      (raw_request_headers c2).lookup "X-Bunker-Token" = Option.some c2.x_bunker_token) := by
  refine ⟨?_, ?_, ?_⟩
  · unfold make_request_headers
    rw [if_pos (by simpa using h)]
    cases ht : (c.x_bunker_token != "") <;> simp [List.lookup]
  · intro c2
    unfold raw_request_headers
    cases ht : (c2.x_bunker_token != "") <;> simp [List.lookup]
  · intro c2 h2
    unfold make_request_headers raw_request_headers
    cases ht : (c2.x_bunker_tenant != "") <;> simp [List.lookup, h2]

theorem C7_tenant_header_witness :
    (("tenantA" : String) ≠ "") ∧
    (make_request_headers ⟨"https://h", "tokB", "tenantA"⟩).lookup "X-Bunker-Tenant"
      = Option.some "tenantA" ∧
    (∀ c2 : DatabunkerproAPI,
      (raw_request_headers c2).lookup "X-Bunker-Tenant" = Option.none) ∧
    (∀ c2 : DatabunkerproAPI, c2.x_bunker_token ≠ "" →
      (make_request_headers c2).lookup "X-Bunker-Token" = Option.some c2.x_bunker_token ∧
      (raw_request_headers c2).lookup "X-Bunker-Token" = Option.some c2.x_bunker_token) :=
  ⟨by decide, C7_tenant_header ⟨"https://h", "tokB", "tenantA"⟩ (by decide)⟩

/-- C8 counterexample: create_user routes only by the all-digits test on
str() of the value, so an integer groupname of -3 (str form not all
digits) is placed under the name key with the id key absent, against the
claim that every integer reference goes under the id key. -/
theorem C8_digit_routing_counterexample :
    create_user_data (PyVal.dict []) (Option.some [("groupname", PyVal.int (-3))]) =
      [("profile", PyVal.dict []), ("groupname", PyVal.int (-3))] ∧
    List.lookup "groupid" [("profile", PyVal.dict []), ("groupname", PyVal.int (-3))] =
      Option.none :=
  ⟨rfl, rfl⟩

/-- C8 amended: every reference-routing operation tests whether the
string form of the reference is all digits; update_group, update_role,
update_policy, delete_connector, the three connector user-data
operations, add_user_to_group, bulk_list_group_users,
validate_connector_connectivity and get_table_metadata additionally
route any value of python int type to the id key, while create_user and
create_users_bulk test only the string form, so there an integer whose
str() is not all digits (a negative integer) lands under the name key.
Where the test selects one key the other is omitted — except in
validate_connector_connectivity and get_table_metadata, whose id branch
also sets connectorname from options; add_user_to_group and
bulk_list_group_users apply str() to the value stored under the name
key. Statements that rely on the all-digits test being false are
restricted to ASCII strings, where the modelled test coincides with
python str.isdigit (python also accepts Unicode digits). -/
theorem C8_digit_routing_amended :
    (∀ (profile : PyVal) (s : String), pyIsdigit s = true →
      (create_user_data profile (Option.some [("groupname", PyVal.str s)])).lookup "groupid"
          = Option.some (PyVal.str s) ∧
      (create_user_data profile (Option.some [("groupname", PyVal.str s)])).lookup "groupname"
          = Option.none) ∧
    (∀ (profile : PyVal) (s : String), pyIsdigit s = false → asciiOnly s = true →
      (create_user_data profile (Option.some [("groupname", PyVal.str s)])).lookup "groupname"
          = Option.some (PyVal.str s) ∧
      (create_user_data profile (Option.some [("groupname", PyVal.str s)])).lookup "groupid"
          = Option.none) ∧
    (∀ (profile : PyVal) (n : Int), pyIsdigit (pyStr (PyVal.int n)) = true →
      (create_user_data profile (Option.some [("groupname", PyVal.int n)])).lookup "groupid"
          = Option.some (PyVal.int n) ∧
      (create_user_data profile (Option.some [("groupname", PyVal.int n)])).lookup "groupname"
          = Option.none) ∧
    (∀ (profile : PyVal) (n : Int), pyIsdigit (pyStr (PyVal.int n)) = false →
      (create_user_data profile (Option.some [("groupname", PyVal.int n)])).lookup "groupname"
          = Option.some (PyVal.int n) ∧
      (create_user_data profile (Option.some [("groupname", PyVal.int n)])).lookup "groupid"
          = Option.none) ∧
    (∀ (profile : PyVal) (s : String), pyIsdigit s = true →
      (create_user_data profile (Option.some [("rolename", PyVal.str s)])).lookup "roleid"
          = Option.some (PyVal.str s) ∧
      (create_user_data profile (Option.some [("rolename", PyVal.str s)])).lookup "rolename"
          = Option.none) ∧
    (∀ (profile : PyVal) (s : String), pyIsdigit s = false → asciiOnly s = true →
      (create_user_data profile (Option.some [("rolename", PyVal.str s)])).lookup "rolename"
          = Option.some (PyVal.str s) ∧
      (create_user_data profile (Option.some [("rolename", PyVal.str s)])).lookup "roleid"
          = Option.none) ∧
    (∀ (profile : PyVal) (s : String), pyIsdigit s = true →
      bulk_user_record_data [("profile", profile), ("groupname", PyVal.str s)]
        = Option.some [("profile", profile), ("groupid", PyVal.str s)]) ∧
    (∀ (profile : PyVal) (s : String), pyIsdigit s = false → asciiOnly s = true →
      bulk_user_record_data [("profile", profile), ("groupname", PyVal.str s)]
        = Option.some [("profile", profile), ("groupname", PyVal.str s)]) ∧
    (∀ (profile : PyVal) (s : String), pyIsdigit s = true →
      bulk_user_record_data [("profile", profile), ("rolename", PyVal.str s)]
        = Option.some [("profile", profile), ("roleid", PyVal.str s)]) ∧
    (∀ (profile : PyVal) (s : String), pyIsdigit s = false → asciiOnly s = true →
      bulk_user_record_data [("profile", profile), ("rolename", PyVal.str s)]
        = Option.some [("profile", profile), ("rolename", PyVal.str s)]) ∧
    (∀ n : Int, update_group_data (PyVal.int n) Option.none = [("groupid", PyVal.int n)]) ∧
    (∀ s : String, pyIsdigit s = true →
      update_group_data (PyVal.str s) Option.none = [("groupid", PyVal.str s)]) ∧
    (∀ s : String, pyIsdigit s = false → asciiOnly s = true →
      update_group_data (PyVal.str s) Option.none = [("groupname", PyVal.str s)]) ∧
    (∀ n : Int, update_role_data (PyVal.int n) Option.none = [("roleid", PyVal.int n)]) ∧
    (∀ s : String, pyIsdigit s = true →
      update_role_data (PyVal.str s) Option.none = [("roleid", PyVal.str s)]) ∧
    (∀ s : String, pyIsdigit s = false → asciiOnly s = true →
      update_role_data (PyVal.str s) Option.none = [("rolename", PyVal.str s)]) ∧
    (∀ n : Int, update_policy_data (PyVal.int n) Option.none = [("policyid", PyVal.int n)]) ∧
    (∀ s : String, pyIsdigit s = true →
      update_policy_data (PyVal.str s) Option.none = [("policyid", PyVal.str s)]) ∧
    (∀ s : String, pyIsdigit s = false → asciiOnly s = true →
      update_policy_data (PyVal.str s) Option.none = [("policyname", PyVal.str s)]) ∧
    (∀ n : Int, delete_connector_data (PyVal.int n) = [("connectorid", PyVal.int n)]) ∧
    (∀ s : String, pyIsdigit s = true →
      delete_connector_data (PyVal.str s) = [("connectorid", PyVal.str s)]) ∧
    (∀ s : String, pyIsdigit s = false → asciiOnly s = true →
      delete_connector_data (PyVal.str s) = [("connectorname", PyVal.str s)]) ∧
    (∀ (mode identity : String) (n : Int),
      connector_user_request_data mode identity (PyVal.int n) =
        [("mode", PyVal.str mode), ("identity", PyVal.str identity),
         ("connectorid", PyVal.int n)]) ∧
    (∀ (mode identity s : String), pyIsdigit s = true →
      connector_user_request_data mode identity (PyVal.str s) =
        [("mode", PyVal.str mode), ("identity", PyVal.str identity),
         ("connectorid", PyVal.str s)]) ∧
    (∀ (mode identity s : String), pyIsdigit s = false → asciiOnly s = true →
      connector_user_request_data mode identity (PyVal.str s) =
        [("mode", PyVal.str mode), ("identity", PyVal.str identity),
         ("connectorname", PyVal.str s)]) ∧
    (∀ (mode identity : String) (n : Int),
      (add_user_to_group_data mode identity (PyVal.int n) Option.none).lookup "groupid"
          = Option.some (PyVal.int n) ∧
      (add_user_to_group_data mode identity (PyVal.int n) Option.none).lookup "groupname"
          = Option.none) ∧
    (∀ (mode identity s : String), pyIsdigit s = true →
      (add_user_to_group_data mode identity (PyVal.str s) Option.none).lookup "groupid"
          = Option.some (PyVal.str s) ∧
      (add_user_to_group_data mode identity (PyVal.str s) Option.none).lookup "groupname"
          = Option.none) ∧
    (∀ (mode identity s : String), pyIsdigit s = false → asciiOnly s = true →
      (add_user_to_group_data mode identity (PyVal.str s) Option.none).lookup "groupname"
          = Option.some (PyVal.str s) ∧
      (add_user_to_group_data mode identity (PyVal.str s) Option.none).lookup "groupid"
          = Option.none) ∧
    (∀ (mode identity s : String), pyIsdigit s = true →
      (add_user_to_group_data mode identity (PyVal.str "admins")
          (Option.some (PyVal.str s))).lookup "roleid" = Option.some (PyVal.str s) ∧
      (add_user_to_group_data mode identity (PyVal.str "admins")
          (Option.some (PyVal.str s))).lookup "rolename" = Option.none) ∧
    (∀ (mode identity s : String), pyIsdigit s = false → asciiOnly s = true →
      (add_user_to_group_data mode identity (PyVal.str "admins")
          (Option.some (PyVal.str s))).lookup "rolename" = Option.some (PyVal.str s) ∧
      (add_user_to_group_data mode identity (PyVal.str "admins")
          (Option.some (PyVal.str s))).lookup "roleid" = Option.none) ∧
    (∀ (u : String) (off lim n : Int),
      bulk_list_group_users_data u off lim (PyVal.int n) =
        [("unlockuuid", PyVal.str u), ("offset", PyVal.int off), ("limit", PyVal.int lim),
         ("groupid", PyVal.int n)]) ∧
    (∀ (u : String) (off lim : Int) (s : String), pyIsdigit s = true →
      bulk_list_group_users_data u off lim (PyVal.str s) =
        [("unlockuuid", PyVal.str u), ("offset", PyVal.int off), ("limit", PyVal.int lim),
         ("groupid", PyVal.str s)]) ∧
    (∀ (u : String) (off lim : Int) (s : String), pyIsdigit s = false → asciiOnly s = true →
      bulk_list_group_users_data u off lim (PyVal.str s) =
        [("unlockuuid", PyVal.str u), ("offset", PyVal.int off), ("limit", PyVal.int lim),
         ("groupname", PyVal.str s)]) ∧
    (∀ (n : Int) (opts : PyDict),
      (connector_options_data (PyVal.int n) opts).lookup "connectorid"
          = Option.some (PyVal.int n) ∧
      (connector_options_data (PyVal.int n) opts).lookup "connectorname"
          = Option.some (pyDictGet opts "connectorname")) ∧
    (∀ (s : String) (opts : PyDict), pyIsdigit s = true →
      (connector_options_data (PyVal.str s) opts).lookup "connectorid"
          = Option.some (PyVal.str s) ∧
      (connector_options_data (PyVal.str s) opts).lookup "connectorname"
          = Option.some (pyDictGet opts "connectorname")) ∧
    (∀ (s : String) (opts : PyDict), pyIsdigit s = false → asciiOnly s = true →
      (connector_options_data (PyVal.str s) opts).lookup "connectorname"
          = Option.some (PyVal.str s) ∧
      (connector_options_data (PyVal.str s) opts).lookup "connectorid"
          = Option.none) := by
  have hcu_gs : ∀ (profile : PyVal) (s : String),
      create_user_data profile (Option.some [("groupname", PyVal.str s)]) =
        if pyIsdigit s then [("profile", profile), ("groupid", PyVal.str s)]
        else [("profile", profile), ("groupname", PyVal.str s)] := fun _ _ => rfl
  have hcu_gi : ∀ (profile : PyVal) (n : Int),
      create_user_data profile (Option.some [("groupname", PyVal.int n)]) =
        if pyIsdigit (pyStr (PyVal.int n)) then
          [("profile", profile), ("groupid", PyVal.int n)]
        else [("profile", profile), ("groupname", PyVal.int n)] := fun _ _ => rfl
  have hcu_rs : ∀ (profile : PyVal) (s : String),
      create_user_data profile (Option.some [("rolename", PyVal.str s)]) =
        if pyIsdigit s then [("profile", profile), ("roleid", PyVal.str s)]
        else [("profile", profile), ("rolename", PyVal.str s)] := fun _ _ => rfl
  have hbk_gs : ∀ (profile : PyVal) (s : String),
      bulk_user_record_data [("profile", profile), ("groupname", PyVal.str s)] =
        Option.some (if pyIsdigit s then [("profile", profile), ("groupid", PyVal.str s)]
          else [("profile", profile), ("groupname", PyVal.str s)]) := fun _ _ => rfl
  have hbk_rs : ∀ (profile : PyVal) (s : String),
      bulk_user_record_data [("profile", profile), ("rolename", PyVal.str s)] =
        Option.some (if pyIsdigit s then [("profile", profile), ("roleid", PyVal.str s)]
          else [("profile", profile), ("rolename", PyVal.str s)]) := fun _ _ => rfl
  have hug_s : ∀ s : String,
      update_group_data (PyVal.str s) Option.none =
        if pyIsdigit s then [("groupid", PyVal.str s)]
        else [("groupname", PyVal.str s)] := fun _ => rfl
  have hur_s : ∀ s : String,
      update_role_data (PyVal.str s) Option.none =
        if pyIsdigit s then [("roleid", PyVal.str s)]
        else [("rolename", PyVal.str s)] := fun _ => rfl
  have hup_s : ∀ s : String,
      update_policy_data (PyVal.str s) Option.none =
        if pyIsdigit s then [("policyid", PyVal.str s)]
        else [("policyname", PyVal.str s)] := fun _ => rfl
  have hdc_s : ∀ s : String,
      delete_connector_data (PyVal.str s) =
        if pyIsdigit s then [("connectorid", PyVal.str s)]
        else [("connectorname", PyVal.str s)] := fun _ => rfl
  have hcn_s : ∀ (mode identity s : String),
      connector_user_request_data mode identity (PyVal.str s) =
        if pyIsdigit s then
          [("mode", PyVal.str mode), ("identity", PyVal.str identity),
           ("connectorid", PyVal.str s)]
        else
          [("mode", PyVal.str mode), ("identity", PyVal.str identity),
           ("connectorname", PyVal.str s)] := fun _ _ _ => rfl
  have hag_s : ∀ (mode identity s : String),
      add_user_to_group_data mode identity (PyVal.str s) Option.none =
        if pyIsdigit s then
          [("mode", PyVal.str mode), ("identity", PyVal.str identity),
           ("groupid", PyVal.str s)]
        else
          [("mode", PyVal.str mode), ("identity", PyVal.str identity),
           ("groupname", PyVal.str s)] := fun _ _ _ => rfl
  have har_s : ∀ (mode identity s : String),
      add_user_to_group_data mode identity (PyVal.str "admins")
          (Option.some (PyVal.str s)) =
        if pyIsdigit s then
          [("mode", PyVal.str mode), ("identity", PyVal.str identity),
           ("groupname", PyVal.str "admins"), ("roleid", PyVal.str s)]
        else
          [("mode", PyVal.str mode), ("identity", PyVal.str identity),
           ("groupname", PyVal.str "admins"), ("rolename", PyVal.str s)] := fun _ _ _ => rfl
  have hbl_s : ∀ (u : String) (off lim : Int) (s : String),
      bulk_list_group_users_data u off lim (PyVal.str s) =
        if pyIsdigit s then
          [("unlockuuid", PyVal.str u), ("offset", PyVal.int off), ("limit", PyVal.int lim),
           ("groupid", PyVal.str s)]
        else
          [("unlockuuid", PyVal.str u), ("offset", PyVal.int off), ("limit", PyVal.int lim),
           ("groupname", PyVal.str s)] := fun _ _ _ _ => rfl
  have hco_s : ∀ (s : String) (opts : PyDict),
      connector_options_data (PyVal.str s) opts =
        if pyIsdigit s then
          connector_options_base opts ++
            [("connectorid", PyVal.str s), ("connectorname", pyDictGet opts "connectorname")]
        else connector_options_base opts ++ [("connectorname", PyVal.str s)] :=
    fun _ _ => rfl
  refine ⟨?_, ?_, ?_, ?_, ?_, ?_, ?_, ?_, ?_, ?_, ?_, ?_, ?_, ?_, ?_, ?_, ?_, ?_, ?_, ?_,
    ?_, ?_, ?_, ?_, ?_, ?_, ?_, ?_, ?_, ?_, ?_, ?_, ?_, ?_, ?_, ?_⟩
  · intro profile s hd
    rw [hcu_gs, if_pos hd]
    exact ⟨rfl, rfl⟩
  · intro profile s hd _
    rw [hcu_gs, if_neg (by rw [hd]; exact Bool.false_ne_true)]
    exact ⟨rfl, rfl⟩
  · intro profile n hd
    rw [hcu_gi, if_pos hd]
    exact ⟨rfl, rfl⟩
  · intro profile n hd
    rw [hcu_gi, if_neg (by rw [hd]; exact Bool.false_ne_true)]
    exact ⟨rfl, rfl⟩
  · intro profile s hd
    rw [hcu_rs, if_pos hd]
    exact ⟨rfl, rfl⟩
  · intro profile s hd _
    rw [hcu_rs, if_neg (by rw [hd]; exact Bool.false_ne_true)]
    exact ⟨rfl, rfl⟩
  · intro profile s hd
    rw [hbk_gs, if_pos hd]
  · intro profile s hd _
    rw [hbk_gs, if_neg (by rw [hd]; exact Bool.false_ne_true)]
  · intro profile s hd
    rw [hbk_rs, if_pos hd]
  · intro profile s hd _
    rw [hbk_rs, if_neg (by rw [hd]; exact Bool.false_ne_true)]
  · intro n
    rfl
  · intro s hd
    rw [hug_s, if_pos hd]
  · intro s hd _
    rw [hug_s, if_neg (by rw [hd]; exact Bool.false_ne_true)]
  · intro n
    rfl
  · intro s hd
    rw [hur_s, if_pos hd]
  · intro s hd _
    rw [hur_s, if_neg (by rw [hd]; exact Bool.false_ne_true)]
  · intro n
    rfl
  · intro s hd
    rw [hup_s, if_pos hd]
  · intro s hd _
    rw [hup_s, if_neg (by rw [hd]; exact Bool.false_ne_true)]
  · intro n
    rfl
  · intro s hd
    rw [hdc_s, if_pos hd]
  · intro s hd _
    rw [hdc_s, if_neg (by rw [hd]; exact Bool.false_ne_true)]
  · intro mode identity n
    rfl
  · intro mode identity s hd
    rw [hcn_s, if_pos hd]
  · intro mode identity s hd _
    rw [hcn_s, if_neg (by rw [hd]; exact Bool.false_ne_true)]
  · intro mode identity n
    exact ⟨rfl, rfl⟩
  · intro mode identity s hd
    rw [hag_s, if_pos hd]
    exact ⟨rfl, rfl⟩
  · intro mode identity s hd _
    rw [hag_s, if_neg (by rw [hd]; exact Bool.false_ne_true)]
    exact ⟨rfl, rfl⟩
  · intro mode identity s hd
    rw [har_s, if_pos hd]
    exact ⟨rfl, rfl⟩
  · intro mode identity s hd _
    rw [har_s, if_neg (by rw [hd]; exact Bool.false_ne_true)]
    exact ⟨rfl, rfl⟩
  · intro u off lim n
    rfl
  · intro u off lim s hd
    rw [hbl_s, if_pos hd]
  · intro u off lim s hd _
    rw [hbl_s, if_neg (by rw [hd]; exact Bool.false_ne_true)]
  · intro n opts
    exact ⟨rfl, rfl⟩
  · intro s opts hd
    rw [hco_s, if_pos hd]
    exact ⟨rfl, rfl⟩
  · intro s opts hd _
    rw [hco_s, if_neg (by rw [hd]; exact Bool.false_ne_true)]
    exact ⟨rfl, rfl⟩

/-- C10: raw_request contains no recovery: a transport failure propagates
as the raised exception (the error of the modelled exception monad), and
any obtained response, whatever its status code, is returned as its
unparsed content bytes. -/
theorem C10_raw_no_containment (net : Transport) (c : DatabunkerproAPI)
    (endpoint method : String) (data md : Option PyDict) :
    (∀ msg : String,
      net (raw_request_request c endpoint method data md) = TransportResult.failure msg →
      raw_request net c endpoint method data md = Except.error msg) ∧
    (∀ r : HttpResponse,
      net (raw_request_request c endpoint method data md) = TransportResult.success r →
      raw_request net c endpoint method data md = Except.ok r.content) := by
  constructor
  · intro msg h
    simp only [raw_request, h]
  · intro r h
    simp only [raw_request, h]

theorem C10_raw_no_containment_witness :
    raw_request (fun _ => TransportResult.failure "connection timed out")
      ⟨"https://h", "tok", "ten"⟩ "UserGet" "POST" Option.none Option.none =
      Except.error "connection timed out" ∧
    raw_request (fun _ => TransportResult.success
        { status_code := 503, reason := "Service Unavailable", url := "u",
          content := "busy", json := Except.error "Expecting value" })
      ⟨"https://h", "tok", "ten"⟩ "UserGet" "POST" Option.none Option.none =
      Except.ok "busy" :=
  ⟨(C10_raw_no_containment (fun _ => TransportResult.failure "connection timed out")
      ⟨"https://h", "tok", "ten"⟩ "UserGet" "POST" Option.none Option.none).1
      "connection timed out" rfl,
   (C10_raw_no_containment (fun _ => TransportResult.success
        { status_code := 503, reason := "Service Unavailable", url := "u",
          content := "busy", json := Except.error "Expecting value" })
      ⟨"https://h", "tok", "ten"⟩ "UserGet" "POST" Option.none Option.none).2
      _ rfl⟩

theorem takeWhile_append_all {α} (p : α → Bool) {xs : List α} (ys : List α)
    (hx : ∀ a ∈ xs, p a = true) :
    (xs ++ ys).takeWhile p = xs ++ ys.takeWhile p := by
  induction xs with
  | nil => rfl
  | cons a t ih =>
      rw [List.cons_append, List.takeWhile_cons_of_pos (hx a (List.mem_cons_self a t)),
        ih (fun b hb => hx b (List.mem_cons_of_mem a hb)), List.cons_append]

theorem dropWhile_append_all {α} (p : α → Bool) {xs : List α} (ys : List α)
    (hx : ∀ a ∈ xs, p a = true) :
    (xs ++ ys).dropWhile p = ys.dropWhile p := by
  induction xs with
  | nil => rfl
  | cons a t ih =>
      rw [List.cons_append, List.dropWhile_cons_of_pos (hx a (List.mem_cons_self a t)),
        ih (fun b hb => hx b (List.mem_cons_of_mem a hb))]

theorem space_char_cases {c : Char} (h : isPySpace c = true) :
    c = ' ' ∨ c = Char.ofNat 9 ∨ c = Char.ofNat 10 ∨ c = Char.ofNat 13 ∨
      c = Char.ofNat 11 ∨ c = Char.ofNat 12 := by
  unfold isPySpace at h
  simp only [Bool.or_eq_true, beq_iff_eq] at h
  tauto

theorem not_space_of_nameChar {c : Char} (h : isNameChar c = true) : isPySpace c = false := by
  cases hs : isPySpace c
  · rfl
  · rcases space_char_cases hs with h1|h1|h1|h1|h1|h1 <;> subst h1 <;>
      exact absurd h (by decide)

theorem not_space_of_valChar {c : Char} (h : isValChar c = true) : isPySpace c = false := by
  cases hs : isPySpace c
  · rfl
  · rcases space_char_cases hs with h1|h1|h1|h1|h1|h1 <;> subst h1 <;>
      exact absurd h (by decide)

theorem nameChar_ne_hash {c : Char} (h : isNameChar c = true) : c ≠ '#' := by
  intro he
  subst he
  exact absurd h (by decide)

theorem matchMetricLine_labeled (name lab val : List Char)
    (hn : name ≠ []) (hname : ∀ c ∈ name, isNameChar c = true)
    (hlab : lab ≠ []) (hlabc : ∀ c ∈ lab, (c == Char.ofNat 125) = false)
    (hv0 : val ≠ []) (hvalc : ∀ c ∈ val, isValChar c = true) :
    matchMetricLine (name ++ Char.ofNat 123 :: (lab ++ Char.ofNat 125 :: ' ' :: val)) =
      Option.some (name, Option.some lab, val) := by
  have h1 : (name ++ Char.ofNat 123 :: (lab ++ Char.ofNat 125 :: ' ' :: val)).takeWhile
      isNameChar = name := by
    rw [takeWhile_append_all _ _ hname, List.takeWhile_cons_of_neg (by decide),
      List.append_nil]
  have h2 : (name ++ Char.ofNat 123 :: (lab ++ Char.ofNat 125 :: ' ' :: val)).dropWhile
      isNameChar = Char.ofNat 123 :: (lab ++ Char.ofNat 125 :: ' ' :: val) := by
    rw [dropWhile_append_all _ _ hname, List.dropWhile_cons_of_neg (by decide)]
  have hlab2 : ∀ c ∈ lab, (fun d => d != Char.ofNat 125) c = true := by
    intro c hc
    simp only [bne, hlabc c hc]
    rfl
  have h3 : (lab ++ Char.ofNat 125 :: ' ' :: val).takeWhile
      (fun d => d != Char.ofNat 125) = lab := by
    rw [takeWhile_append_all _ _ hlab2, List.takeWhile_cons_of_neg (by decide),
      List.append_nil]
  have h4 : (lab ++ Char.ofNat 125 :: ' ' :: val).dropWhile
      (fun d => d != Char.ofNat 125) = Char.ofNat 125 :: ' ' :: val := by
    rw [dropWhile_append_all _ _ hlab2, List.dropWhile_cons_of_neg (by decide)]
  obtain ⟨v0, vt, rfl⟩ : ∃ v0 vt, val = v0 :: vt := by
    cases val with
    | nil => exact absurd rfl hv0
    | cons a t => exact ⟨a, t, rfl⟩
  have hv0s : isPySpace v0 = false := not_space_of_valChar (hvalc v0 (List.mem_cons_self _ _))
  have h5 : ((' ' : Char) :: v0 :: vt).takeWhile isPySpace = [' '] := by
    rw [List.takeWhile_cons_of_pos (by decide), List.takeWhile_cons_of_neg (by simp [hv0s])]
  have h6 : ((' ' : Char) :: v0 :: vt).dropWhile isPySpace = v0 :: vt := by
    rw [List.dropWhile_cons_of_pos (by decide), List.dropWhile_cons_of_neg (by simp [hv0s])]
  have hne : name.isEmpty = false := by
    cases name with | nil => exact absurd rfl hn | cons a t => rfl
  have hlabne : lab.isEmpty = false := by
    cases lab with | nil => exact absurd rfl hlab | cons a t => rfl
  have hall : (v0 :: vt).all isValChar = true := List.all_eq_true.mpr hvalc
  simp only [matchMetricLine, h1, h2, h3, h4, h5, h6, hne, hlabne, hall]
  simp [h5, h6, hall]

theorem matchMetricLine_plain (name val : List Char)
    (hn : name ≠ []) (hname : ∀ c ∈ name, isNameChar c = true)
    (hv0 : val ≠ []) (hvalc : ∀ c ∈ val, isValChar c = true) :
    matchMetricLine (name ++ ' ' :: val) = Option.some (name, Option.none, val) := by
  have h1 : (name ++ ' ' :: val).takeWhile isNameChar = name := by
    rw [takeWhile_append_all _ _ hname, List.takeWhile_cons_of_neg (by decide),
      List.append_nil]
  have h2 : (name ++ ' ' :: val).dropWhile isNameChar = ' ' :: val := by
    rw [dropWhile_append_all _ _ hname, List.dropWhile_cons_of_neg (by decide)]
  obtain ⟨v0, vt, rfl⟩ : ∃ v0 vt, val = v0 :: vt := by
    cases val with
    | nil => exact absurd rfl hv0
    | cons a t => exact ⟨a, t, rfl⟩
  have hv0s : isPySpace v0 = false := not_space_of_valChar (hvalc v0 (List.mem_cons_self _ _))
  have h5 : ((' ' : Char) :: v0 :: vt).takeWhile isPySpace = [' '] := by
    rw [List.takeWhile_cons_of_pos (by decide), List.takeWhile_cons_of_neg (by simp [hv0s])]
  have h6 : ((' ' : Char) :: v0 :: vt).dropWhile isPySpace = v0 :: vt := by
    rw [List.dropWhile_cons_of_pos (by decide), List.dropWhile_cons_of_neg (by simp [hv0s])]
  have hne : name.isEmpty = false := by
    cases name with | nil => exact absurd rfl hn | cons a t => rfl
  have hall : (v0 :: vt).all isValChar = true := List.all_eq_true.mpr hvalc
  simp only [matchMetricLine, h1, h2, h5, h6, hne, hall]
  simp [h5, h6, hall]

theorem parseMetricLine_comment (cs : List Char) (h : cs.take 1 = ['#']) :
    parseMetricLine cs = LineResult.skip := by
  unfold parseMetricLine
  rw [if_pos (by simp [h])]

theorem parseMetricLine_blank (cs : List Char) (h : cs.all isPySpace = true) :
    parseMetricLine cs = LineResult.skip := by
  unfold parseMetricLine
  rw [if_pos (by simp [h])]

theorem line_gate_false (n0 : Char) (rest : List Char) (hc : isNameChar n0 = true) :
    (decide ((n0 :: rest).take 1 = ['#']) || (n0 :: rest).all isPySpace) = false := by
  have h1 : ¬ ((n0 :: rest).take 1 = ['#']) := by
    simp only [List.take_succ_cons, List.take_zero, List.cons.injEq, and_true]
    exact nameChar_ne_hash hc
  rw [decide_eq_false h1]
  simp [List.all_cons, not_space_of_nameChar hc]

theorem parseMetricLine_entry_labeled (name lab val : List Char) (v : ℚ)
    (hn : name ≠ []) (hname : ∀ c ∈ name, isNameChar c = true)
    (hlab : lab ≠ []) (hlabc : ∀ c ∈ lab, (c == Char.ofNat 125) = false)
    (hv0 : val ≠ []) (hvalc : ∀ c ∈ val, isValChar c = true)
    (hv : pyFloatOfMatch val = Option.some v) :
    parseMetricLine (name ++ Char.ofNat 123 :: (lab ++ Char.ofNat 125 :: ' ' :: val)) =
      LineResult.entry (String.mk (name ++ Char.ofNat 123 :: (lab ++ [Char.ofNat 125]))) v := by
  have hgate : (decide ((name ++ Char.ofNat 123 :: (lab ++ Char.ofNat 125 :: ' ' :: val)).take 1
        = ['#']) ||
      (name ++ Char.ofNat 123 :: (lab ++ Char.ofNat 125 :: ' ' :: val)).all isPySpace) = false := by
    cases name with
    | nil => exact absurd rfl hn
    | cons n0 nt =>
        rw [List.cons_append]
        exact line_gate_false n0 _ (hname n0 (List.mem_cons_self _ _))
  unfold parseMetricLine
  rw [if_neg (by rw [hgate]; exact Bool.false_ne_true)]
  rw [matchMetricLine_labeled name lab val hn hname hlab hlabc hv0 hvalc]
  show (match pyFloatOfMatch val with
    | Option.some q =>
        LineResult.entry (String.mk (name ++ Char.ofNat 123 :: (lab ++ [Char.ofNat 125]))) q
    | Option.none => LineResult.valueError) = _
  rw [hv]

theorem parseMetricLine_entry_plain (name val : List Char) (v : ℚ)
    (hn : name ≠ []) (hname : ∀ c ∈ name, isNameChar c = true)
    (hv0 : val ≠ []) (hvalc : ∀ c ∈ val, isValChar c = true)
    (hv : pyFloatOfMatch val = Option.some v) :
    parseMetricLine (name ++ ' ' :: val) = LineResult.entry (String.mk name) v := by
  have hgate : (decide ((name ++ ' ' :: val).take 1 = ['#']) ||
      (name ++ ' ' :: val).all isPySpace) = false := by
    cases name with
    | nil => exact absurd rfl hn
    | cons n0 nt =>
        rw [List.cons_append]
        exact line_gate_false n0 _ (hname n0 (List.mem_cons_self _ _))
  unfold parseMetricLine
  rw [if_neg (by rw [hgate]; exact Bool.false_ne_true)]
  rw [matchMetricLine_plain name val hn hname hv0 hvalc]
  show (match pyFloatOfMatch val with
    | Option.some q => LineResult.entry (String.mk name) q
    | Option.none => LineResult.valueError) = _
  rw [hv]

/-- C9: the Prometheus parser skips hash-prefixed and blank lines, maps a
line of the form name-space-value to an entry keyed by the name, maps a
line with a brace-delimited label block to an entry keyed by the name
with the label block appended, the value being the decimal number the
captured text denotes; and on the claim's concrete input it yields
exactly the two-entry mapping of the claim. -/
theorem C9_prometheus_parsing :
    parse_prometheus_metrics "foo 1.0\n# comment\nbar\x7bx=\"1\"\x7d 2.5\n" =
      Option.some [("foo", (1 : ℚ)), ("bar\x7bx=\"1\"\x7d", (5/2 : ℚ))] ∧
    (∀ cs : List Char, cs.take 1 = ['#'] → parseMetricLine cs = LineResult.skip) ∧
    (∀ cs : List Char, cs.all isPySpace = true → parseMetricLine cs = LineResult.skip) ∧
    (∀ (name val : List Char) (v : ℚ), name ≠ [] →
      (∀ c ∈ name, isNameChar c = true) → val ≠ [] →
      (∀ c ∈ val, isValChar c = true) → pyFloatOfMatch val = Option.some v →
      parseMetricLine (name ++ ' ' :: val) = LineResult.entry (String.mk name) v) ∧
    (∀ (name lab val : List Char) (v : ℚ), name ≠ [] →
      (∀ c ∈ name, isNameChar c = true) → lab ≠ [] →
      (∀ c ∈ lab, (c == Char.ofNat 125) = false) → val ≠ [] →
      (∀ c ∈ val, isValChar c = true) → pyFloatOfMatch val = Option.some v →
      parseMetricLine (name ++ Char.ofNat 123 :: (lab ++ Char.ofNat 125 :: ' ' :: val)) =
        LineResult.entry (String.mk (name ++ Char.ofNat 123 :: (lab ++ [Char.ofNat 125]))) v) := by
  refine ⟨?_, parseMetricLine_comment, parseMetricLine_blank,
    fun name val v hn hname hv0 hvalc hv =>
      parseMetricLine_entry_plain name val v hn hname hv0 hvalc hv,
    fun name lab val v hn hname hlab hlabc hv0 hvalc hv =>
      parseMetricLine_entry_labeled name lab val v hn hname hlab hlabc hv0 hvalc hv⟩
  have p1 : parseMetricLine ("foo 1.0".data) = LineResult.entry "foo" 1 := by
    have hm : matchMetricLine ("foo 1.0".data) =
        Option.some (['f', 'o', 'o'], Option.none, ['1', '.', '0']) := by decide
    have hv : pyFloatOfMatch ['1', '.', '0'] = Option.some 1 := by
      rw [pyFloatOfMatch, if_pos (by decide)]
      show Option.some ((digitsToNat ['1'] : ℚ) + (digitsToNat ['0'] : ℚ) / (10 : ℚ) ^ 1) = _
      rw [show digitsToNat ['1'] = 1 from by decide, show digitsToNat ['0'] = 0 from by decide]
      norm_num
    rw [parseMetricLine, if_neg (by decide), hm]
    show (match pyFloatOfMatch ['1', '.', '0'] with
      | Option.some q => LineResult.entry (String.mk ['f', 'o', 'o']) q
      | Option.none => LineResult.valueError) = _
    rw [hv]
  have p2 : parseMetricLine ("# comment".data) = LineResult.skip := by decide
  have p3 : parseMetricLine ("bar\x7bx=\"1\"\x7d 2.5".data) =
      LineResult.entry "bar\x7bx=\"1\"\x7d" (5/2) := by
    have hm : matchMetricLine ("bar\x7bx=\"1\"\x7d 2.5".data) =
        Option.some (['b', 'a', 'r'], Option.some ("x=\"1\"".data), ['2', '.', '5']) := by decide
    have hv : pyFloatOfMatch ['2', '.', '5'] = Option.some (5/2) := by
      rw [pyFloatOfMatch, if_pos (by decide)]
      show Option.some ((digitsToNat ['2'] : ℚ) + (digitsToNat ['5'] : ℚ) / (10 : ℚ) ^ 1) = _
      rw [show digitsToNat ['2'] = 2 from by decide, show digitsToNat ['5'] = 5 from by decide]
      norm_num
    rw [parseMetricLine, if_neg (by decide), hm]
    show (match pyFloatOfMatch ['2', '.', '5'] with
      | Option.some q => LineResult.entry
          (String.mk (['b', 'a', 'r'] ++ Char.ofNat 123 :: ("x=\"1\"".data ++ [Char.ofNat 125]))) q
      | Option.none => LineResult.valueError) = _
    rw [hv]
    exact rfl
  have p4 : parseMetricLine ("".data) = LineResult.skip := by decide
  have hs : splitLines ("foo 1.0\n# comment\nbar\x7bx=\"1\"\x7d 2.5\n").data =
      ["foo 1.0".data, "# comment".data, "bar\x7bx=\"1\"\x7d 2.5".data, "".data] := by decide
  rw [parse_prometheus_metrics, hs]
  simp only [List.foldl, p1, p2, p3, p4]
  rfl

theorem C9_prometheus_parsing_witness :
    parseMetricLine ("# x".data) = LineResult.skip ∧
    parseMetricLine ("  ".data) = LineResult.skip ∧
    (pyFloatOfMatch ['7'] = Option.some 7 ∧
      parseMetricLine (['u', 'p'] ++ ' ' :: ['7']) =
        LineResult.entry (String.mk ['u', 'p']) 7) ∧
    parseMetricLine (['u', 'p'] ++ Char.ofNat 123 :: (['a'] ++ Char.ofNat 125 :: ' ' :: ['7'])) =
      LineResult.entry (String.mk (['u', 'p'] ++ Char.ofNat 123 :: (['a'] ++ [Char.ofNat 125]))) 7 :=
  ⟨C9_prometheus_parsing.2.1 _ (by decide),
   C9_prometheus_parsing.2.2.1 _ (by decide),
   ⟨by simp [pyFloatOfMatch, digitsToNat],
    C9_prometheus_parsing.2.2.2.1 ['u', 'p'] ['7'] 7 (by decide) (by decide) (by decide)
      (by decide) (by simp [pyFloatOfMatch, digitsToNat])⟩,
   C9_prometheus_parsing.2.2.2.2 ['u', 'p'] ['a'] ['7'] 7 (by decide) (by decide) (by decide)
      (by decide) (by decide) (by decide) (by simp [pyFloatOfMatch, digitsToNat])⟩

theorem C8_digit_routing_amended_witness :
    (pyIsdigit "42" = true ∧ pyIsdigit "admins" = false ∧ asciiOnly "admins" = true ∧
      pyIsdigit (pyStr (PyVal.int 7)) = true ∧ pyIsdigit (pyStr (PyVal.int (-3))) = false) ∧
    ((create_user_data (PyVal.dict []) (Option.some [("groupname", PyVal.str "42")])).lookup
        "groupid" = Option.some (PyVal.str "42") ∧
      (create_user_data (PyVal.dict []) (Option.some [("groupname", PyVal.str "42")])).lookup
        "groupname" = Option.none) ∧
    ((create_user_data (PyVal.dict []) (Option.some [("groupname", PyVal.str "admins")])).lookup
        "groupname" = Option.some (PyVal.str "admins") ∧
      (create_user_data (PyVal.dict []) (Option.some [("groupname", PyVal.str "admins")])).lookup
        "groupid" = Option.none) ∧
    ((create_user_data (PyVal.dict []) (Option.some [("groupname", PyVal.int 7)])).lookup
        "groupid" = Option.some (PyVal.int 7) ∧
      (create_user_data (PyVal.dict []) (Option.some [("groupname", PyVal.int 7)])).lookup
        "groupname" = Option.none) ∧
    ((create_user_data (PyVal.dict []) (Option.some [("groupname", PyVal.int (-3))])).lookup
        "groupname" = Option.some (PyVal.int (-3)) ∧
      (create_user_data (PyVal.dict []) (Option.some [("groupname", PyVal.int (-3))])).lookup
        "groupid" = Option.none) ∧
    ((create_user_data (PyVal.dict []) (Option.some [("rolename", PyVal.str "99")])).lookup
        "roleid" = Option.some (PyVal.str "99") ∧
      (create_user_data (PyVal.dict []) (Option.some [("rolename", PyVal.str "99")])).lookup
        "rolename" = Option.none) ∧
    ((create_user_data (PyVal.dict []) (Option.some [("rolename", PyVal.str "viewer")])).lookup
        "rolename" = Option.some (PyVal.str "viewer") ∧
      (create_user_data (PyVal.dict []) (Option.some [("rolename", PyVal.str "viewer")])).lookup
        "roleid" = Option.none) ∧
    bulk_user_record_data [("profile", PyVal.dict []), ("groupname", PyVal.str "42")]
      = Option.some [("profile", PyVal.dict []), ("groupid", PyVal.str "42")] ∧
    bulk_user_record_data [("profile", PyVal.dict []), ("groupname", PyVal.str "team-a")]
      = Option.some [("profile", PyVal.dict []), ("groupname", PyVal.str "team-a")] ∧
    bulk_user_record_data [("profile", PyVal.dict []), ("rolename", PyVal.str "99")]
      = Option.some [("profile", PyVal.dict []), ("roleid", PyVal.str "99")] ∧
    bulk_user_record_data [("profile", PyVal.dict []), ("rolename", PyVal.str "viewer")]
      = Option.some [("profile", PyVal.dict []), ("rolename", PyVal.str "viewer")] ∧
    update_group_data (PyVal.str "42") Option.none = [("groupid", PyVal.str "42")] ∧
    update_group_data (PyVal.str "team-a") Option.none = [("groupname", PyVal.str "team-a")] ∧
    update_role_data (PyVal.str "42") Option.none = [("roleid", PyVal.str "42")] ∧
    update_role_data (PyVal.str "editors") Option.none = [("rolename", PyVal.str "editors")] ∧
    update_policy_data (PyVal.str "42") Option.none = [("policyid", PyVal.str "42")] ∧
    update_policy_data (PyVal.str "gdpr") Option.none = [("policyname", PyVal.str "gdpr")] ∧
    delete_connector_data (PyVal.str "42") = [("connectorid", PyVal.str "42")] ∧
    delete_connector_data (PyVal.str "mysql-main") =
      [("connectorname", PyVal.str "mysql-main")] ∧
    connector_user_request_data "email" "u@example.com" (PyVal.str "42") =
      [("mode", PyVal.str "email"), ("identity", PyVal.str "u@example.com"),
       ("connectorid", PyVal.str "42")] ∧
    connector_user_request_data "email" "u@example.com" (PyVal.str "pgdb") =
      [("mode", PyVal.str "email"), ("identity", PyVal.str "u@example.com"),
       ("connectorname", PyVal.str "pgdb")] ∧
    ((add_user_to_group_data "email" "u@example.com" (PyVal.str "42") Option.none).lookup
        "groupid" = Option.some (PyVal.str "42") ∧
      (add_user_to_group_data "email" "u@example.com" (PyVal.str "42") Option.none).lookup
        "groupname" = Option.none) ∧
    ((add_user_to_group_data "email" "u@example.com" (PyVal.str "grp") Option.none).lookup
        "groupname" = Option.some (PyVal.str "grp") ∧
      (add_user_to_group_data "email" "u@example.com" (PyVal.str "grp") Option.none).lookup
        "groupid" = Option.none) ∧
    ((add_user_to_group_data "email" "u@example.com" (PyVal.str "admins")
        (Option.some (PyVal.str "99"))).lookup "roleid" = Option.some (PyVal.str "99") ∧
      (add_user_to_group_data "email" "u@example.com" (PyVal.str "admins")
        (Option.some (PyVal.str "99"))).lookup "rolename" = Option.none) ∧
    ((add_user_to_group_data "email" "u@example.com" (PyVal.str "admins")
        (Option.some (PyVal.str "viewer"))).lookup "rolename"
        = Option.some (PyVal.str "viewer") ∧
      (add_user_to_group_data "email" "u@example.com" (PyVal.str "admins")
        (Option.some (PyVal.str "viewer"))).lookup "roleid" = Option.none) ∧
    bulk_list_group_users_data "uuid-1" 0 10 (PyVal.str "42") =
      [("unlockuuid", PyVal.str "uuid-1"), ("offset", PyVal.int 0), ("limit", PyVal.int 10),
       ("groupid", PyVal.str "42")] ∧
    bulk_list_group_users_data "uuid-1" 0 10 (PyVal.str "grp") =
      [("unlockuuid", PyVal.str "uuid-1"), ("offset", PyVal.int 0), ("limit", PyVal.int 10),
       ("groupname", PyVal.str "grp")] ∧
    ((connector_options_data (PyVal.str "42")
        [("connectorname", PyVal.str "cn")]).lookup "connectorid"
        = Option.some (PyVal.str "42") ∧
      (connector_options_data (PyVal.str "42")
        [("connectorname", PyVal.str "cn")]).lookup "connectorname"
        = Option.some (PyVal.str "cn")) ∧
    ((connector_options_data (PyVal.str "pgdb") []).lookup "connectorname"
        = Option.some (PyVal.str "pgdb") ∧
      (connector_options_data (PyVal.str "pgdb") []).lookup "connectorid"
        = Option.none) := by
  obtain ⟨h1, h2, h3, h4, h5, h6, h7, h8, h9, h10, h11, h12, h13, h14, h15, h16, h17,
    h18, h19, h20, h21, h22, h23, h24, h25, h26, h27, h28, h29, h30, h31, h32, h33,
    h34, h35, h36⟩ := C8_digit_routing_amended
  exact ⟨⟨rfl, rfl, rfl, rfl, rfl⟩,
    h1 (PyVal.dict []) "42" rfl,
    h2 (PyVal.dict []) "admins" rfl rfl,
    h3 (PyVal.dict []) 7 rfl,
    h4 (PyVal.dict []) (-3) rfl,
    h5 (PyVal.dict []) "99" rfl,
    h6 (PyVal.dict []) "viewer" rfl rfl,
    h7 (PyVal.dict []) "42" rfl,
    h8 (PyVal.dict []) "team-a" rfl rfl,
    h9 (PyVal.dict []) "99" rfl,
    h10 (PyVal.dict []) "viewer" rfl rfl,
    h12 "42" rfl,
    h13 "team-a" rfl rfl,
    h15 "42" rfl,
    h16 "editors" rfl rfl,
    h18 "42" rfl,
    h19 "gdpr" rfl rfl,
    h21 "42" rfl,
    h22 "mysql-main" rfl rfl,
    h24 "email" "u@example.com" "42" rfl,
    h25 "email" "u@example.com" "pgdb" rfl rfl,
    h27 "email" "u@example.com" "42" rfl,
    h28 "email" "u@example.com" "grp" rfl rfl,
    h29 "email" "u@example.com" "99" rfl,
    h30 "email" "u@example.com" "viewer" rfl rfl,
    h32 "uuid-1" 0 10 "42" rfl,
    h33 "uuid-1" 0 10 "grp" rfl rfl,
    h35 "42" [("connectorname", PyVal.str "cn")] rfl,
    h36 "pgdb" [] rfl rfl⟩
